import Mathlib

/-!
# Command-buffer GL test context

A shallow embedding of `tools/gpu/gl/command_buffer/GLTestContext_command_buffer.cpp`.

* Handles and function pointers (`void*`) are natural numbers, `0` being the null pointer
  (`EGL_NO_DISPLAY`, `EGL_NO_SURFACE`, `EGL_NO_CONTEXT`, `nullptr`).
* The file-level statics, the thread-local shadow record of the calling thread and the list of
  driver entry points invoked so far form the `World`, passed explicitly.
* The driver is an arbitrary function of the history of calls (`Env.driver`), so every
  deterministic stateful driver is covered.
* Calling through a null function pointer is a fault: the operation returns `none`.
-/

namespace CommandBuffer

/-! ## Constants (lines 27-50 of the source) -/

def EGL_FALSE : Nat := 0

def EGL_TRUE : Nat := 1

def EGL_OPENGL_ES2_BIT : Int := 0x0004

def EGL_CONTEXT_CLIENT_VERSION : Int := 0x3098

def EGL_NO_SURFACE : Nat := 0

def EGL_NO_DISPLAY : Nat := 0

def EGL_NO_CONTEXT : Nat := 0

def EGL_DEFAULT_DISPLAY : Nat := 0

def EGL_SURFACE_TYPE : Int := 0x3033

def EGL_PBUFFER_BIT : Int := 0x0001

def EGL_RENDERABLE_TYPE : Int := 0x3040

def EGL_RED_SIZE : Int := 0x3024

def EGL_GREEN_SIZE : Int := 0x3023

def EGL_BLUE_SIZE : Int := 0x3022

def EGL_ALPHA_SIZE : Int := 0x3021

def EGL_DEPTH_SIZE : Int := 0x3025

def EGL_STENCIL_SIZE : Int := 0x3025

def EGL_SAMPLES : Int := 0x3031

def EGL_SAMPLE_BUFFERS : Int := 0x3032

def EGL_NONE : Int := 0x3038

def EGL_WIDTH : Int := 0x3057

def EGL_HEIGHT : Int := 0x3056

def EGL_DRAW : Int := 0x3059

def EGL_READ : Int := 0x305A

/-! ## The driver and the other collaborators -/

/-- One invocation of a driver entry point, with the arguments passed by value. Each constructor
is named after the symbol the pointer is resolved from (lines 127-139). -/
inductive Call where
  | eglGetDisplay (display_id : Nat)
  | eglInitialize (dpy : Nat)
  | eglChooseConfig (dpy : Nat) (attrib_list : List Int) (config_size : Int)
  | eglGetConfigAttrib (dpy config : Nat) (attrib : Int)
  | eglCreatePbufferSurface (dpy config : Nat) (attrib_list : List Int)
  | eglDestroySurface (dpy surface : Nat)
  | eglCreateContext (dpy config share_context : Nat) (attrib_list : List Int)
  | eglDestroyContext (dpy ctx : Nat)
  | eglMakeCurrent (dpy draw read ctx : Nat)
  | eglSwapBuffers (dpy surface : Nat)
  | eglGetProcAddress (procname : String)
  deriving DecidableEq, Repr

/-- What a driver call answers: its return value (an `EGLBoolean` or a handle), the value it
stores through an `EGLConfig*` out-parameter, if it stores one, and the value it stores through
an `EGLint*` out-parameter, if it stores one. -/
structure Resp where
  ret : Nat
  cfg : Option Nat
  val : Option Int
  deriving DecidableEq, Repr

/-- The three build variants of lines 118-124. -/
inductive Platform where
  | win32
  | mac
  | other
  deriving DecidableEq, Repr

/-- The library name selected by the preprocessor (lines 117-124). -/
def libName : Platform → String
  | Platform.win32 => "command_buffer_gles2.dll"
  | Platform.mac => "libcommand_buffer_gles2.dylib"
  | Platform.other => "libcommand_buffer_gles2.so"

/-- Everything the file consumes and does not define: the dynamic-library service
(`DynamicLoadLibrary`, `GetProcedureAddress`), the driver behind the resolved entry points (its
answer depends on the calls made before and on the call itself), and the entry-point table
builder `GrGLAssembleGLESInterface` with the table's `validate()`: the builder resolves the names
`assembleNames` through the resolver it is given and returns the table `assembleResult` computes
from the resolved addresses (`0` is `nullptr`). -/
structure Env where
  platform : Platform
  DynamicLoadLibrary : String → Nat
  GetProcedureAddress : Nat → String → Nat
  driver : List Call → Call → Resp
  assembleNames : List String
  assembleResult : List Nat → Nat
  validate : Nat → Bool

/-! ## State -/

/-- The driver binding table: the statics of lines 66-81 and the `SkOnce` of line 158. -/
structure Table where
  gfGetDisplay : Nat
  gfInitialize : Nat
  gfTerminate : Nat
  gfChooseConfig : Nat
  gfGetConfigAttrib : Nat
  gfCreateWindowSurface : Nat
  gfCreatePbufferSurface : Nat
  gfDestroySurface : Nat
  gfCreateContext : Nat
  gfDestroyContext : Nat
  gfMakeCurrent : Nat
  gfSwapBuffers : Nat
  gfGetProcAddress : Nat
  gLibrary : Nat
  gfFunctionsLoadedSuccessfully : Bool
  once : Bool
  deriving DecidableEq, Repr

/-- The calling thread's shadow record, the thread-locals of lines 85-88. -/
structure Shadow where
  gCurrDisplay : Nat
  gCurrReadSurface : Nat
  gCurrDrawSurface : Nat
  gCurrContext : Nat
  deriving DecidableEq, Repr

/-- The binding table, the calling thread's shadow record, and the driver calls issued so far,
oldest first. -/
structure World where
  table : Table
  tls : Shadow
  trace : List Call
  deriving DecidableEq, Repr

/-- The state at process start: the initialisers of lines 66-88, nothing called yet. -/
def World.initial : World :=
  { table :=
      { gfGetDisplay := 0, gfInitialize := 0, gfTerminate := 0, gfChooseConfig := 0,
        gfGetConfigAttrib := 0, gfCreateWindowSurface := 0, gfCreatePbufferSurface := 0,
        gfDestroySurface := 0, gfCreateContext := 0, gfDestroyContext := 0, gfMakeCurrent := 0,
        gfSwapBuffers := 0, gfGetProcAddress := 0, gLibrary := 0,
        gfFunctionsLoadedSuccessfully := false, once := false }
    tls :=
      { gCurrDisplay := EGL_NO_DISPLAY, gCurrReadSurface := EGL_NO_SURFACE,
        gCurrDrawSurface := EGL_NO_SURFACE, gCurrContext := EGL_NO_CONTEXT }
    trace := [] }

/-- The members of a `CommandBufferGLTestContext`, and the entry-point table the base class
holds after `init` (`0` before). -/
structure Instance where
  fContext : Nat
  fDisplay : Nat
  fSurface : Nat
  fConfig : Nat
  fGL : Nat
  deriving DecidableEq, Repr

/-- The four handles captured by the lambda of line 178. -/
structure Token where
  display : Nat
  dsurface : Nat
  rsurface : Nat
  context : Nat
  deriving DecidableEq, Repr

/-- A call through the function pointer `fp`: a null pointer faults, otherwise the call is
recorded and the driver answers from the history before it. -/
def invoke (env : Env) (w : World) (fp : Nat) (c : Call) : Option (Resp × World) :=
  if fp = 0 then none
  else some (env.driver w.trace c, { w with trace := w.trace ++ [c] })

/-! ## The shadow current-context tracker (lines 90-112) -/

def fakeGetCurrentDisplay (w : World) : Nat := w.tls.gCurrDisplay

def fakeGetCurrentSurface (w : World) (readdraw : Int) : Nat :=
  if readdraw = EGL_DRAW then w.tls.gCurrDrawSurface
  else if readdraw = EGL_READ then w.tls.gCurrReadSurface
  else EGL_NO_SURFACE

def fakeGetCurrentContext (w : World) : Nat := w.tls.gCurrContext

def hookedMakeCurrent (env : Env) (w : World) (display draw read ctx : Nat) :
    Option (Nat × World) :=
  if w.table.gfFunctionsLoadedSuccessfully then
    match invoke env w w.table.gfMakeCurrent (Call.eglMakeCurrent display draw read ctx) with
    | none => none
    | some (r, w1) =>
      if EGL_TRUE = r.ret then
        some (EGL_TRUE,
          { w1 with tls := { gCurrDisplay := display, gCurrDrawSurface := draw,
                             gCurrReadSurface := read, gCurrContext := ctx } })
      else some (EGL_FALSE, w1)
  else some (EGL_FALSE, w)

/-! ## The driver binding loader (lines 115-168) -/

def load_command_buffer_functions (env : Env) (t : Table) : Table :=
  if t.gLibrary = 0 then
    let t1 := { t with gLibrary := env.DynamicLoadLibrary (libName env.platform) }
    if t1.gLibrary ≠ 0 then
      let t2 := { t1 with
        gfGetDisplay := env.GetProcedureAddress t1.gLibrary "eglGetDisplay"
        gfInitialize := env.GetProcedureAddress t1.gLibrary "eglInitialize"
        gfTerminate := env.GetProcedureAddress t1.gLibrary "eglTerminate"
        gfChooseConfig := env.GetProcedureAddress t1.gLibrary "eglChooseConfig"
        gfGetConfigAttrib := env.GetProcedureAddress t1.gLibrary "eglGetConfigAttrib"
        gfCreateWindowSurface := env.GetProcedureAddress t1.gLibrary "eglCreateWindowSurface"
        gfCreatePbufferSurface := env.GetProcedureAddress t1.gLibrary "eglCreatePbufferSurface"
        gfDestroySurface := env.GetProcedureAddress t1.gLibrary "eglDestroySurface"
        gfCreateContext := env.GetProcedureAddress t1.gLibrary "eglCreateContext"
        gfDestroyContext := env.GetProcedureAddress t1.gLibrary "eglDestroyContext"
        gfMakeCurrent := env.GetProcedureAddress t1.gLibrary "eglMakeCurrent"
        gfSwapBuffers := env.GetProcedureAddress t1.gLibrary "eglSwapBuffers"
        gfGetProcAddress := env.GetProcedureAddress t1.gLibrary "eglGetProcAddress" }
      { t2 with gfFunctionsLoadedSuccessfully :=
          decide (t2.gfGetDisplay ≠ 0) && decide (t2.gfInitialize ≠ 0) &&
          decide (t2.gfTerminate ≠ 0) && decide (t2.gfChooseConfig ≠ 0) &&
          decide (t2.gfCreateWindowSurface ≠ 0) && decide (t2.gfCreatePbufferSurface ≠ 0) &&
          decide (t2.gfDestroySurface ≠ 0) && decide (t2.gfCreateContext ≠ 0) &&
          decide (t2.gfDestroyContext ≠ 0) && decide (t2.gfMakeCurrent ≠ 0) &&
          decide (t2.gfSwapBuffers ≠ 0) && decide (t2.gfGetProcAddress ≠ 0) }
    else t1
  else t

def command_buffer_get_gl_proc (env : Env) (w : World) (name : String) :
    Option (Nat × World) :=
  if !w.table.gfFunctionsLoadedSuccessfully then some (0, w)
  else
    match invoke env w w.table.gfGetProcAddress (Call.eglGetProcAddress name) with
    | none => none
    | some (r, w1) => some (r.ret, w1)

/-- The `SkOnce` of lines 157-160: the loader body runs on the first call only. -/
def load_command_buffer_once (env : Env) (t : Table) : Table :=
  if t.once then t else { load_command_buffer_functions env t with once := true }

/-- The lookups `GrGLAssembleGLESInterface` makes through `command_buffer_get_gl_proc`, in
order, with the addresses they return. -/
def assembleLookups (env : Env) (w : World) : List String → Option (List Nat × World)
  | [] => some ([], w)
  | name :: rest =>
    match command_buffer_get_gl_proc env w name with
    | none => none
    | some (p, w1) =>
      match assembleLookups env w1 rest with
      | none => none
      | some (ps, w2) => some (p :: ps, w2)

/-- The builder call of line 167. -/
def GrGLAssembleGLESInterface (env : Env) (w : World) : Option (Nat × World) :=
  match assembleLookups env w env.assembleNames with
  | none => none
  | some (ps, w1) => some (env.assembleResult ps, w1)

def create_command_buffer_interface (env : Env) (w : World) : Option (Nat × World) :=
  let w1 := { w with table := load_command_buffer_once env w.table }
  if !w1.table.gfFunctionsLoadedSuccessfully then some (0, w1)
  else GrGLAssembleGLESInterface env w1

/-! ## Save and restore (lines 170-181) -/

/-- The restore action, `none` being the empty `std::function`. -/
def context_restorer (w : World) : Option Token :=
  if !w.table.gfFunctionsLoadedSuccessfully then none
  else
    some { display := fakeGetCurrentDisplay w
           dsurface := fakeGetCurrentSurface w EGL_DRAW
           rsurface := fakeGetCurrentSurface w EGL_READ
           context := fakeGetCurrentContext w }

/-- Running the lambda of lines 178-180; the result of the make-current is dropped. -/
def Token.run (env : Env) (t : Token) (w : World) : Option World :=
  match hookedMakeCurrent env w t.display t.dsurface t.rsurface t.context with
  | none => none
  | some (_, w1) => some w1

/-- Modelled from the spec: invoking a restore action, as `SkScopeExit` (not in this file) does
when its scope ends: "a null/empty token is a no-op", any other runs its lambda. -/
def runRestorer (env : Env) (f : Option Token) (w : World) : Option World :=
  match f with
  | none => some w
  | some t => t.run env w

/-! ## The context lifecycle manager (lines 187-362) -/

def configAttribs : List Int :=
  [EGL_SURFACE_TYPE, EGL_PBUFFER_BIT,
   EGL_RENDERABLE_TYPE, EGL_OPENGL_ES2_BIT,
   EGL_RED_SIZE, 8,
   EGL_GREEN_SIZE, 8,
   EGL_BLUE_SIZE, 8,
   EGL_ALPHA_SIZE, 8,
   EGL_NONE]

def surfaceAttribs : List Int :=
  [EGL_WIDTH, 1,
   EGL_HEIGHT, 1,
   EGL_NONE]

def contextAttribs : List Int :=
  [EGL_CONTEXT_CLIENT_VERSION, 2,
   EGL_NONE]

/-- Modelled from the spec: the base test-context initializer `init(entryPointTable)` (not in
this file), which "adopts ownership" of the table. -/
def Instance.init (self : Instance) (gl : Nat) : Instance :=
  { self with fGL := gl }

def destroyGLContext (env : Env) (w : World) (self : Instance) : Option (Instance × World) :=
  if !w.table.gfFunctionsLoadedSuccessfully then some (self, w)
  else if EGL_NO_DISPLAY = self.fDisplay then some (self, w)
  else
    -- lines 287-292
    let step1 : Option (Bool × Instance × World) :=
      if EGL_NO_CONTEXT ≠ self.fContext then
        match invoke env w w.table.gfDestroyContext
            (Call.eglDestroyContext self.fDisplay self.fContext) with
        | none => none
        | some (_, w1) =>
          some (decide (fakeGetCurrentContext w = self.fContext),
                { self with fContext := EGL_NO_CONTEXT }, w1)
      else some (false, self, w)
    match step1 with
    | none => none
    | some (wasCurrent, self1, w1) =>
      -- lines 293-299
      let step2 : Option World :=
        if wasCurrent then
          match hookedMakeCurrent env w1 self1.fDisplay EGL_NO_SURFACE EGL_NO_SURFACE
              EGL_NO_CONTEXT with
          | none => none
          | some (_, w2) => some w2
        else some w1
      match step2 with
      | none => none
      | some w2 =>
        -- lines 301-305
        if EGL_NO_SURFACE ≠ self1.fSurface then
          match invoke env w2 w2.table.gfDestroySurface
              (Call.eglDestroySurface self1.fDisplay self1.fSurface) with
          | none => none
          | some (_, w3) =>
            some ({ self1 with fSurface := EGL_NO_SURFACE, fDisplay := EGL_NO_DISPLAY }, w3)
        else some ({ self1 with fDisplay := EGL_NO_DISPLAY }, w2)

/-- The statement pair `this->destroyGLContext(); return;` of the constructor, leaving the scope
with the restore action `f` pending. -/
def destroyAndReturn (env : Env) (w : World) (self : Instance) (f : Option Token) :
    Option (Instance × Option Token × World) :=
  match destroyGLContext env w self with
  | none => none
  | some (self1, w1) => some (self1, f, w1)

/-- The constructor body, lines 187-273, up to the point where control leaves it: the instance,
the action held by the `SkScopeExit` of line 253 (`none` when the scope was left before that line
or the action is empty) and the state. `fConfig0` and `numConfigs0` are the indeterminate first
contents of the member `fConfig` and of the local `numConfigs`, neither of which is
initialised. -/
def constructorBody (env : Env) (w : World) (shareContext : Option Instance)
    (fConfig0 : Nat) (numConfigs0 : Int) : Option (Instance × Option Token × World) :=
  let self0 : Instance :=
    { fContext := EGL_NO_CONTEXT, fDisplay := EGL_NO_DISPLAY, fSurface := EGL_NO_SURFACE,
      fConfig := fConfig0, fGL := 0 }
  let w0 := { w with table := load_command_buffer_once env w.table }
  if !w0.table.gfFunctionsLoadedSuccessfully then some (self0, none, w0)
  else
  match invoke env w0 w0.table.gfGetDisplay (Call.eglGetDisplay EGL_DEFAULT_DISPLAY) with
  | none => none
  | some (r1, w1) =>
  let self1 := { self0 with fDisplay := r1.ret }
  if EGL_NO_DISPLAY = self1.fDisplay then some (self1, none, w1)
  else
  match invoke env w1 w1.table.gfInitialize (Call.eglInitialize self1.fDisplay) with
  | none => none
  | some (r2, w2) =>
  if r2.ret = 0 then destroyAndReturn env w2 self1 none
  else
  match invoke env w2 w2.table.gfChooseConfig (Call.eglChooseConfig self1.fDisplay configAttribs 1) with
  | none => none
  | some (r3, w3) =>
  let self3 := { self1 with fConfig := r3.cfg.getD self1.fConfig }
  let numConfigs : Int := r3.val.getD numConfigs0
  if r3.ret = 0 ∨ numConfigs ≠ 1 then destroyAndReturn env w3 self3 none
  else
  match invoke env w3 w3.table.gfCreatePbufferSurface
      (Call.eglCreatePbufferSurface self3.fDisplay self3.fConfig surfaceAttribs) with
  | none => none
  | some (r4, w4) =>
  let self4 := { self3 with fSurface := r4.ret }
  if EGL_NO_SURFACE = self4.fSurface then destroyAndReturn env w4 self4 none
  else
  let eglShareContext : Nat :=
    match shareContext with
    | some other => other.fContext
    | none => 0
  match invoke env w4 w4.table.gfCreateContext
      (Call.eglCreateContext self4.fDisplay self4.fConfig eglShareContext contextAttribs) with
  | none => none
  | some (r5, w5) =>
  let self5 := { self4 with fContext := r5.ret }
  if EGL_NO_CONTEXT = self5.fContext then destroyAndReturn env w5 self5 none
  else
  let restorer := context_restorer w5
  match hookedMakeCurrent env w5 self5.fDisplay self5.fSurface self5.fSurface self5.fContext with
  | none => none
  | some (r6, w6) =>
  if r6 = 0 then destroyAndReturn env w6 self5 restorer
  else
  match create_command_buffer_interface env w6 with
  | none => none
  | some (gl, w7) =>
  if gl = 0 then destroyAndReturn env w7 self5 restorer
  else if !env.validate gl then destroyAndReturn env w7 self5 restorer
  else some (self5.init gl, restorer, w7)

/-- The constructor: its body, then the `SkScopeExit` of line 253 running its action as the
scope is left. -/
def CommandBufferGLTestContext (env : Env) (w : World) (shareContext : Option Instance)
    (fConfig0 : Nat) (numConfigs0 : Int) : Option (Instance × World) :=
  match constructorBody env w shareContext fConfig0 numConfigs0 with
  | none => none
  | some (self, restorer, w1) =>
    match runRestorer env restorer w1 with
    | none => none
    | some w2 => some (self, w2)

def onPlatformGetAutoContextRestore (w : World) (self : Instance) : Option Token :=
  if !w.table.gfFunctionsLoadedSuccessfully ∨ fakeGetCurrentContext w = self.fContext then none
  else context_restorer w

def makeCurrent (env : Env) (w : World) (self : Instance) : Option (Bool × World) :=
  match hookedMakeCurrent env w self.fDisplay self.fSurface self.fSurface self.fContext with
  | none => none
  | some (r, w1) => some (decide (r ≠ EGL_FALSE), w1)

def getStencilBits (env : Env) (w : World) (self : Instance) : Option (Int × World) :=
  let result : Int := 0
  match invoke env w w.table.gfGetConfigAttrib
      (Call.eglGetConfigAttrib self.fDisplay self.fConfig EGL_STENCIL_SIZE) with
  | none => none
  | some (r, w1) => some (r.val.getD result, w1)

def getSampleCount (env : Env) (w : World) (self : Instance) : Option (Int × World) :=
  let result : Int := 0
  match invoke env w w.table.gfGetConfigAttrib
      (Call.eglGetConfigAttrib self.fDisplay self.fConfig EGL_SAMPLES) with
  | none => none
  | some (r, w1) => some (r.val.getD result, w1)

/-! ## Observations and invariants -/

/-- The four reads of the tracker, in the order display, draw surface, read surface, context. -/
def currentReads (w : World) : Nat × Nat × Nat × Nat :=
  (fakeGetCurrentDisplay w, fakeGetCurrentSurface w EGL_DRAW, fakeGetCurrentSurface w EGL_READ,
   fakeGetCurrentContext w)

/-- What the loader establishes (lines 141-145): while the flag is set, the twelve pointers it
tests are not null. -/
def LoaderInvariant (t : Table) : Prop :=
  t.gfFunctionsLoadedSuccessfully = true →
    t.gfGetDisplay ≠ 0 ∧ t.gfInitialize ≠ 0 ∧ t.gfTerminate ≠ 0 ∧ t.gfChooseConfig ≠ 0 ∧
    t.gfCreateWindowSurface ≠ 0 ∧ t.gfCreatePbufferSurface ≠ 0 ∧ t.gfDestroySurface ≠ 0 ∧
    t.gfCreateContext ≠ 0 ∧ t.gfDestroyContext ≠ 0 ∧ t.gfMakeCurrent ≠ 0 ∧
    t.gfSwapBuffers ≠ 0 ∧ t.gfGetProcAddress ≠ 0

instance (t : Table) : Decidable (LoaderInvariant t) := by
  unfold LoaderInvariant
  infer_instance

/-! ## Sample collaborators, for evaluating the code on concrete inputs -/

/-- The answer `EGL_TRUE` / handle `1`, storing configuration `7` and the integer `1`. -/
def Resp.yes : Resp := { ret := 1, cfg := some 7, val := some 1 }

/-- The answer `EGL_FALSE` / null handle, storing nothing. -/
def Resp.no : Resp := { ret := 0, cfg := none, val := none }

/-- A library that opens and has every symbol, and a driver that accepts every call. -/
def sampleEnv : Env :=
  { platform := Platform.other
    DynamicLoadLibrary := fun _ => 1
    GetProcedureAddress := fun _ _ => 1
    driver := fun _ _ => Resp.yes
    assembleNames := ["glGetString", "glFlush"]
    assembleResult := fun _ => 9
    validate := fun _ => true }

/-- The state after the loader ran at process start with `sampleEnv`. -/
def sampleLoaded : World :=
  { World.initial with table := load_command_buffer_once sampleEnv World.initial.table }

/-- The instance states construction goes through: nothing acquired (before the display is
obtained, after a failed construction, after teardown), or the display acquired under a loaded
loader, with the surface and the context acquired or not (during construction, and `Ready`). -/
def ConstructionState (w : World) (self : Instance) : Prop :=
  (self.fContext = 0 ∧ self.fDisplay = 0 ∧ self.fSurface = 0) ∨
  (w.table.gfFunctionsLoadedSuccessfully = true ∧ self.fDisplay ≠ 0)

/-- A `Ready` instance with display `1`, surface `2` and context `3`. -/
def sampleInstance : Instance :=
  { fContext := 3, fDisplay := 1, fSurface := 2, fConfig := 7, fGL := 9 }

/-- The loaded sample state with `sampleInstance` current on the calling thread. -/
def sampleCurrent : World :=
  { sampleLoaded with
    tls := { gCurrDisplay := 1, gCurrReadSurface := 2, gCurrDrawSurface := 2, gCurrContext := 3 } }

/-- A library that opens and has every symbol but `eglGetConfigAttrib`. -/
def envNoGetConfigAttrib : Env :=
  { sampleEnv with
    GetProcedureAddress := fun _ name => if name = "eglGetConfigAttrib" then 0 else 1 }

/-- A library that does not open. -/
def envNoLibrary : Env :=
  { sampleEnv with DynamicLoadLibrary := fun _ => 0 }

/-- A driver whose configuration has a depth size of 24 (attribute `0x3025`) and a stencil size
of 8 (attribute `0x3026`), and that accepts every other call. -/
def envDepthStencil : Env :=
  { sampleEnv with
    driver := fun _ c =>
      match c with
      | Call.eglGetConfigAttrib _ _ a =>
        if a = 0x3025 then { ret := 1, cfg := none, val := some 24 }
        else if a = 0x3026 then { ret := 1, cfg := none, val := some 8 }
        else Resp.no
      | _ => Resp.yes }

/-- The restore action that captures the shadow record `s`. -/
def Shadow.token (s : Shadow) : Token :=
  { display := s.gCurrDisplay, dsurface := s.gCurrDrawSurface, rsurface := s.gCurrReadSurface,
    context := s.gCurrContext }

/-- What the constructor body leaves behind when started in `w`: it returns; the table is the
one the loader left; the three handles are all set (under a loaded loader) or all none; with no
restore action pending the shadow record is the one of `w`; a pending restore action holds the
shadow record of `w`, and the loader is loaded. -/
def BodyPost (env : Env) (w : World) : Option (Instance × Option Token × World) → Prop
  | none => False
  | some (self, f, w1) =>
    w1.table = load_command_buffer_once env w.table ∧
    ((self.fContext ≠ 0 ∧ self.fDisplay ≠ 0 ∧ self.fSurface ≠ 0 ∧
        w1.table.gfFunctionsLoadedSuccessfully = true) ∨
      (self.fContext = 0 ∧ self.fDisplay = 0 ∧ self.fSurface = 0)) ∧
    (f = none → w1.tls = w.tls) ∧
    (∀ t, f = some t → w1.table.gfFunctionsLoadedSuccessfully = true ∧ t = w.tls.token)

/-- A driver that accepts every call and reports two matching configurations. -/
def envTwoConfigs : Env :=
  { sampleEnv with driver := fun _ _ => { ret := 1, cfg := some 7, val := some 2 } }

/-- A sequence of `hookedMakeCurrent` calls on one thread, the results dropped. -/
def makeCurrentSequence (env : Env) (w : World) : List (Nat × Nat × Nat × Nat) → Option World
  | [] => some w
  | (display, draw, read, ctx) :: rest =>
    match hookedMakeCurrent env w display draw read ctx with
    | none => none
    | some (_, w1) => makeCurrentSequence env w1 rest

/-- Capture a token with `context_restorer`, change the binding by a sequence of
`hookedMakeCurrent` calls, then invoke the token. -/
def saveChangeRestore (env : Env) (w : World) (calls : List (Nat × Nat × Nat × Nat)) :
    Option World :=
  let token := context_restorer w
  match makeCurrentSequence env w calls with
  | none => none
  | some w1 => runRestorer env token w1

/-- A driver that refuses to make anything current on `EGL_NO_DISPLAY` and accepts every other
call. -/
def envRejectNoDisplay : Env :=
  { sampleEnv with
    driver := fun _ c =>
      match c with
      | Call.eglMakeCurrent 0 _ _ _ => Resp.no
      | _ => Resp.yes }

/-! ## Lemmas and claims -/

theorem initial_loaderInvariant : LoaderInvariant World.initial.table := by
  intro h
  simp [World.initial] at h

theorem load_functions_loaderInvariant (env : Env) (t : Table) (h : LoaderInvariant t) :
    LoaderInvariant (load_command_buffer_functions env t) := by
  unfold load_command_buffer_functions
  by_cases hl : t.gLibrary = 0
  · by_cases ho : env.DynamicLoadLibrary (libName env.platform) = 0
    · simp only [hl, ho, if_true, ne_eq, not_true_eq_false, if_false]
      exact h
    · simp only [hl, ho, if_true, ne_eq, not_false_eq_true]
      intro hf
      simpa [Bool.and_eq_true, and_assoc] using hf
  · simp only [hl, if_false]
    exact h

theorem load_once_loaderInvariant (env : Env) (t : Table) (h : LoaderInvariant t) :
    LoaderInvariant (load_command_buffer_once env t) := by
  unfold load_command_buffer_once
  by_cases ho : t.once = true
  · simp only [ho, if_true]
    exact h
  · simp only [ho, if_false]
    exact load_functions_loaderInvariant env t h

/-- A call through a pointer that is not null is recorded and answered. -/
theorem invoke_eq (env : Env) (w : World) (fp : Nat) (c : Call) (h : fp ≠ 0) :
    invoke env w fp c = some (env.driver w.trace c, { w with trace := w.trace ++ [c] }) := by
  simp [invoke, h]

/-- The hook under a loaded loader: one driver call, and the record follows its answer. -/
theorem hookedMakeCurrent_loaded (env : Env) (w : World) (display draw read ctx : Nat)
    (hinv : LoaderInvariant w.table) (hl : w.table.gfFunctionsLoadedSuccessfully = true) :
    hookedMakeCurrent env w display draw read ctx =
      if (env.driver w.trace (Call.eglMakeCurrent display draw read ctx)).ret = EGL_TRUE then
        some (EGL_TRUE,
          { w with trace := w.trace ++ [Call.eglMakeCurrent display draw read ctx],
                   tls := { gCurrDisplay := display, gCurrDrawSurface := draw,
                            gCurrReadSurface := read, gCurrContext := ctx } })
      else
        some (EGL_FALSE,
          { w with trace := w.trace ++ [Call.eglMakeCurrent display draw read ctx] }) := by
  have hp : w.table.gfMakeCurrent ≠ 0 := (hinv hl).2.2.2.2.2.2.2.2.2.1
  unfold hookedMakeCurrent
  rw [invoke_eq env w _ _ hp]
  simp only [hl, if_true]
  by_cases hr : (env.driver w.trace (Call.eglMakeCurrent display draw read ctx)).ret = EGL_TRUE
  · simp [hr]
  · have hr2 : ¬ EGL_TRUE = (env.driver w.trace (Call.eglMakeCurrent display draw read ctx)).ret :=
      fun e => hr e.symm
    simp [hr, hr2]

/-- The hook under a loader that did not load: nothing happens. -/
theorem hookedMakeCurrent_unloaded (env : Env) (w : World) (display draw read ctx : Nat)
    (hl : w.table.gfFunctionsLoadedSuccessfully = false) :
    hookedMakeCurrent env w display draw read ctx = some (EGL_FALSE, w) := by
  simp [hookedMakeCurrent, hl]

/-- Teardown with the loader loaded and the display set: all three handles end up cleared, the
table is untouched, the driver sees destroy-context (context set), then make-current of nothing
(context set and current), then destroy-surface (surface set), and the shadow record changes
only through that make-current. -/
theorem destroyGLContext_loaded (env : Env) (w : World) (self : Instance)
    (hinv : LoaderInvariant w.table) (hl : w.table.gfFunctionsLoadedSuccessfully = true)
    (hd : self.fDisplay ≠ 0) :
    ∃ w1, destroyGLContext env w self =
        some ({ self with fContext := 0, fSurface := 0, fDisplay := 0 }, w1) ∧
      w1.table = w.table ∧
      w1.trace = w.trace ++
        (if self.fContext ≠ 0 then [Call.eglDestroyContext self.fDisplay self.fContext] else []) ++
        (if self.fContext ≠ 0 ∧ fakeGetCurrentContext w = self.fContext then
          [Call.eglMakeCurrent self.fDisplay 0 0 0] else []) ++
        (if self.fSurface ≠ 0 then [Call.eglDestroySurface self.fDisplay self.fSurface] else []) ∧
      (¬ (self.fContext ≠ 0 ∧ fakeGetCurrentContext w = self.fContext) → w1.tls = w.tls) := by
  obtain ⟨-, -, -, -, -, -, hp7, -, hp9, hp10, -, -⟩ := hinv hl
  have hd2 : (0 = self.fDisplay) ↔ False := ⟨fun e => hd e.symm, False.elim⟩
  have hc2 : (0 = self.fContext) ↔ (self.fContext = 0) := eq_comm
  have hs2 : (0 = self.fSurface) ↔ (self.fSurface = 0) := eq_comm
  unfold destroyGLContext
  simp only [hookedMakeCurrent, invoke, hl, hp7, hp9, hp10, hd2, hc2, hs2, EGL_NO_DISPLAY,
    EGL_NO_CONTEXT, EGL_NO_SURFACE, EGL_TRUE, EGL_FALSE, fakeGetCurrentContext, Bool.not_true,
    if_true, if_false, Bool.false_eq_true, ne_eq]
  by_cases hc : self.fContext = 0 <;> by_cases hs : self.fSurface = 0 <;>
    by_cases hcur : w.tls.gCurrContext = self.fContext <;>
    by_cases hr : 1 = (env.driver (w.trace ++ [Call.eglDestroyContext self.fDisplay self.fContext])
        (Call.eglMakeCurrent self.fDisplay 0 0 0)).ret <;>
    simp [hc, hs, hcur, hr, hp7, hp9, hp10, hs2, hc2, hl]

/-- C1. For every state the loader can leave behind, every four handles and every driver:
`hookedMakeCurrent` returns, with `EGL_TRUE` or `EGL_FALSE`; it returns `EGL_TRUE` exactly when
the loader flag is set and the driver's make-current answers `EGL_TRUE`; after success the four
current reads are the four arguments; after failure they are what they were before the call;
with the flag clear the state, driver trace included, is untouched; with the flag set the one
driver call made is the make-current with the four arguments. -/
theorem hookedMakeCurrent_contract (env : Env) (w : World) (display draw read ctx : Nat)
    (hinv : LoaderInvariant w.table) :
    ∃ r w1, hookedMakeCurrent env w display draw read ctx = some (r, w1) ∧
      (r = EGL_TRUE ∨ r = EGL_FALSE) ∧
      (r = EGL_TRUE ↔
        (w.table.gfFunctionsLoadedSuccessfully = true ∧
         (env.driver w.trace (Call.eglMakeCurrent display draw read ctx)).ret = EGL_TRUE)) ∧
      (r = EGL_TRUE → currentReads w1 = (display, draw, read, ctx)) ∧
      (r = EGL_FALSE → currentReads w1 = currentReads w) ∧
      (w.table.gfFunctionsLoadedSuccessfully = false → w1 = w) ∧
      (w.table.gfFunctionsLoadedSuccessfully = true →
        w1.trace = w.trace ++ [Call.eglMakeCurrent display draw read ctx]) := by
  by_cases hl : w.table.gfFunctionsLoadedSuccessfully = true
  · rw [hookedMakeCurrent_loaded env w display draw read ctx hinv hl]
    by_cases hr : (env.driver w.trace (Call.eglMakeCurrent display draw read ctx)).ret = EGL_TRUE
    · rw [if_pos hr]
      refine ⟨EGL_TRUE, _, rfl, ?_⟩
      simp [hl, hr, currentReads, fakeGetCurrentDisplay, fakeGetCurrentSurface,
        fakeGetCurrentContext, EGL_TRUE, EGL_FALSE, EGL_DRAW, EGL_READ]
    · rw [if_neg hr]
      refine ⟨EGL_FALSE, _, rfl, ?_⟩
      have hr1 : ¬ (env.driver w.trace (Call.eglMakeCurrent display draw read ctx)).ret = 1 := hr
      simp [hl, hr1, currentReads, fakeGetCurrentDisplay, fakeGetCurrentSurface,
        fakeGetCurrentContext, EGL_TRUE, EGL_FALSE, EGL_DRAW, EGL_READ]
  · have hf : w.table.gfFunctionsLoadedSuccessfully = false := by simpa using hl
    rw [hookedMakeCurrent_unloaded env w display draw read ctx hf]
    refine ⟨EGL_FALSE, w, rfl, ?_⟩
    simp [hf, EGL_TRUE, EGL_FALSE]

/-- C1 at a loaded loader and an accepting driver: the call succeeds and the four reads are the
arguments `1, 2, 3, 4`. -/
theorem hookedMakeCurrent_contract_witness :
    LoaderInvariant sampleLoaded.table ∧
    ∃ r w1, hookedMakeCurrent sampleEnv sampleLoaded 1 2 3 4 = some (r, w1) ∧
      r = EGL_TRUE ∧ currentReads w1 = (1, 2, 3, 4) := by
  have hinv : LoaderInvariant sampleLoaded.table := by decide
  obtain ⟨r, w1, h, _, hiff, hs, _⟩ := hookedMakeCurrent_contract sampleEnv sampleLoaded 1 2 3 4 hinv
  have hr : r = EGL_TRUE := hiff.2 ⟨by decide, by decide⟩
  exact ⟨hinv, r, w1, h, hr, hs hr⟩

/-- C5. For every state the loader can leave behind, every driver and every instance state
construction goes through (`ConstructionState`): `destroyGLContext` returns with `fContext`,
`fDisplay` and `fSurface` all none, and a second call right after it returns the very same pair
of instance and state: same handles, same shadow record, no further driver call. -/
theorem destroyGLContext_idempotent (env : Env) (w : World) (self : Instance)
    (hinv : LoaderInvariant w.table) (hstate : ConstructionState w self) :
    ∃ s1 w1, destroyGLContext env w self = some (s1, w1) ∧
      destroyGLContext env w1 s1 = some (s1, w1) ∧
      s1.fContext = EGL_NO_CONTEXT ∧ s1.fDisplay = EGL_NO_DISPLAY ∧
      s1.fSurface = EGL_NO_SURFACE := by
  rcases hstate with ⟨h1, h2, h3⟩ | ⟨hl, hd⟩
  · have hself : destroyGLContext env w self = some (self, w) := by
      unfold destroyGLContext
      by_cases hl : w.table.gfFunctionsLoadedSuccessfully = true <;>
        simp [hl, h2, EGL_NO_DISPLAY]
    exact ⟨self, w, hself, hself, h1, h2, h3⟩
  · obtain ⟨w1, h, ht, -, -⟩ := destroyGLContext_loaded env w self hinv hl hd
    refine ⟨_, w1, h, ?_, rfl, rfl, rfl⟩
    unfold destroyGLContext
    simp [ht, hl, EGL_NO_DISPLAY]

/-- C5 at a `Ready` instance that is current. -/
theorem destroyGLContext_idempotent_witness :
    LoaderInvariant sampleCurrent.table ∧ ConstructionState sampleCurrent sampleInstance ∧
    ∃ s1 w1, destroyGLContext sampleEnv sampleCurrent sampleInstance = some (s1, w1) ∧
      destroyGLContext sampleEnv w1 s1 = some (s1, w1) ∧
      s1.fContext = EGL_NO_CONTEXT ∧ s1.fDisplay = EGL_NO_DISPLAY ∧
      s1.fSurface = EGL_NO_SURFACE :=
  ⟨by decide, Or.inr ⟨by decide, by decide⟩,
   destroyGLContext_idempotent sampleEnv sampleCurrent sampleInstance (by decide)
     (Or.inr ⟨by decide, by decide⟩)⟩

/-- C6. The library opens and every symbol resolves but `eglGetConfigAttrib`: the loader leaves
`gfGetConfigAttrib` null and still sets `gfFunctionsLoadedSuccessfully`. -/
theorem load_flag_misses_getConfigAttrib :
    (load_command_buffer_functions envNoGetConfigAttrib World.initial.table).gLibrary ≠ 0 ∧
    (load_command_buffer_functions envNoGetConfigAttrib World.initial.table).gfGetConfigAttrib
      = 0 ∧
    (load_command_buffer_functions envNoGetConfigAttrib
      World.initial.table).gfFunctionsLoadedSuccessfully = true := by
  decide

/-- C7. The library does not open: construction from the process-start state leaves context,
display and surface none and makes no driver call, `makeCurrent` on the instance returns false
and makes no driver call, and `getStencilBits` and `getSampleCount` call through the null
`gfGetConfigAttrib`, which is a fault, so neither returns 0. -/
theorem load_failure_scenario :
    ∃ self w1, CommandBufferGLTestContext envNoLibrary World.initial none 0 0 = some (self, w1) ∧
      self.fContext = EGL_NO_CONTEXT ∧ self.fDisplay = EGL_NO_DISPLAY ∧
      self.fSurface = EGL_NO_SURFACE ∧
      w1.table.gfFunctionsLoadedSuccessfully = false ∧ w1.table.gfGetConfigAttrib = 0 ∧
      w1.trace = [] ∧
      makeCurrent envNoLibrary w1 self = some (false, w1) ∧
      getStencilBits envNoLibrary w1 self = none ∧
      getSampleCount envNoLibrary w1 self = none :=
  ⟨_, _, rfl, by decide⟩

/-- C10. `EGL_STENCIL_SIZE` is the same attribute id as `EGL_DEPTH_SIZE` (and differs from
`EGL_SAMPLES`), so on a driver whose configuration has depth size 24 and stencil size 8
`getStencilBits` returns 24. -/
theorem getStencilBits_asks_depth :
    EGL_STENCIL_SIZE = EGL_DEPTH_SIZE ∧ EGL_STENCIL_SIZE ≠ EGL_SAMPLES ∧
    (getStencilBits envDepthStencil sampleLoaded sampleInstance).map Prod.fst = some 24 := by
  decide

theorem load_once_once (env : Env) (t : Table) : (load_command_buffer_once env t).once = true := by
  unfold load_command_buffer_once
  by_cases ho : t.once = true <;> simp [ho]

/-- The builder's lookups return and leave table and shadow record alone. -/
theorem assembleLookups_frame (env : Env) (names : List String) (w : World)
    (hinv : LoaderInvariant w.table) (hl : w.table.gfFunctionsLoadedSuccessfully = true) :
    ∃ ps w1, assembleLookups env w names = some (ps, w1) ∧ w1.table = w.table ∧
      w1.tls = w.tls := by
  induction names generalizing w with
  | nil => exact ⟨[], w, rfl, rfl, rfl⟩
  | cons name rest ih =>
    have hp : w.table.gfGetProcAddress ≠ 0 := (hinv hl).2.2.2.2.2.2.2.2.2.2.2
    obtain ⟨ps, w1, h, ht, hs⟩ := ih { w with trace := w.trace ++ [Call.eglGetProcAddress name] }
      hinv hl
    refine ⟨(env.driver w.trace (Call.eglGetProcAddress name)).ret :: ps, w1, ?_, ht, hs⟩
    simp [assembleLookups, command_buffer_get_gl_proc, invoke, hl, hp, h]

/-- Building the entry-point table after the loader ran and loaded: it returns and leaves table
and shadow record alone. -/
theorem create_command_buffer_interface_frame (env : Env) (w : World)
    (r : Option (Nat × World)) (h : create_command_buffer_interface env w = r)
    (ho : w.table.once = true)
    (hinv : LoaderInvariant w.table) (hl : w.table.gfFunctionsLoadedSuccessfully = true) :
    ∃ gl w1, r = some (gl, w1) ∧ w1.table = w.table ∧ w1.tls = w.tls := by
  have hsame : load_command_buffer_once env w.table = w.table := by
    simp [load_command_buffer_once, ho]
  obtain ⟨ps, w1, ha, ht, hs⟩ := assembleLookups_frame env env.assembleNames w hinv hl
  refine ⟨env.assembleResult ps, w1, ?_, ht, hs⟩
  rw [← h]
  simp [create_command_buffer_interface, GrGLAssembleGLESInterface, hsame, hl, ha]

/-- The statement pair `destroyGLContext(); return;` inside the constructor establishes what the
body promises. -/
theorem destroyAndReturn_post (env : Env) (w W : World) (S : Instance) (f : Option Token)
    (ht : W.table = load_command_buffer_once env w.table)
    (hinv : LoaderInvariant W.table) (hl : W.table.gfFunctionsLoadedSuccessfully = true)
    (hd : S.fDisplay ≠ 0)
    (hnone : f = none → S.fContext = 0 ∧ W.tls = w.tls)
    (hsome : ∀ t, f = some t → t = w.tls.token) :
    BodyPost env w (destroyAndReturn env W S f) := by
  obtain ⟨w1, h, ht1, -, htls⟩ := destroyGLContext_loaded env W S hinv hl hd
  unfold destroyAndReturn
  rw [h]
  show _ ∧ _ ∧ _ ∧ _
  refine ⟨by rw [ht1, ht], Or.inr ⟨rfl, rfl, rfl⟩, ?_, ?_⟩
  · intro hf
    obtain ⟨hc, hw⟩ := hnone hf
    rw [htls (fun hh => hh.1 hc), hw]
  · intro t hf
    exact ⟨by rw [ht1]; exact hl, hsome t hf⟩

/-- A call that returned was made through a pointer that is not null, and left table and
shadow record alone. -/
theorem invoke_frame (env : Env) (w : World) (fp : Nat) (c : Call) (r : Resp) (w1 : World)
    (h : invoke env w fp c = some (r, w1)) : w1.table = w.table ∧ w1.tls = w.tls := by
  unfold invoke at h
  by_cases hp : fp = 0
  · simp [hp] at h
  · simp only [hp, if_false, Option.some.injEq, Prod.mk.injEq] at h
    obtain ⟨-, rfl⟩ := h
    exact ⟨rfl, rfl⟩

theorem invoke_ne_none (env : Env) (w : World) (fp : Nat) (c : Call) (hp : fp ≠ 0) :
    invoke env w fp c ≠ none := by
  simp [invoke, hp]

/-- The hook always returns in a state the loader can leave behind. -/
theorem hookedMakeCurrent_ne_none (env : Env) (w : World) (display draw read ctx : Nat)
    (hinv : LoaderInvariant w.table) :
    hookedMakeCurrent env w display draw read ctx ≠ none := by
  by_cases hl : w.table.gfFunctionsLoadedSuccessfully = true
  · rw [hookedMakeCurrent_loaded env w display draw read ctx hinv hl]
    split_ifs <;> simp
  · have hf : w.table.gfFunctionsLoadedSuccessfully = false := by simpa using hl
    rw [hookedMakeCurrent_unloaded env w display draw read ctx hf]
    simp

/-- A returned hook call left the table alone; the shadow record is the four arguments when it
returned non-zero and is unchanged when it returned zero. -/
theorem hookedMakeCurrent_frame (env : Env) (w : World) (display draw read ctx : Nat)
    (r : Nat) (w1 : World) (hinv : LoaderInvariant w.table)
    (h : hookedMakeCurrent env w display draw read ctx = some (r, w1)) :
    w1.table = w.table ∧ (r = 0 → w1.tls = w.tls) ∧
    (r ≠ 0 → w1.tls = { gCurrDisplay := display, gCurrDrawSurface := draw,
                        gCurrReadSurface := read, gCurrContext := ctx }) := by
  by_cases hl : w.table.gfFunctionsLoadedSuccessfully = true
  · rw [hookedMakeCurrent_loaded env w display draw read ctx hinv hl] at h
    split_ifs at h <;>
      simp only [Option.some.injEq, Prod.mk.injEq] at h <;>
      obtain ⟨rfl, rfl⟩ := h <;> simp [EGL_TRUE, EGL_FALSE]
  · have hf : w.table.gfFunctionsLoadedSuccessfully = false := by simpa using hl
    rw [hookedMakeCurrent_unloaded env w display draw read ctx hf] at h
    simp only [Option.some.injEq, Prod.mk.injEq] at h
    obtain ⟨rfl, rfl⟩ := h
    simp [EGL_FALSE]

/-- Under a loaded loader the restore action holds the shadow record. -/
theorem context_restorer_loaded (w : World)
    (hl : w.table.gfFunctionsLoadedSuccessfully = true) :
    context_restorer w = some w.tls.token := by
  simp [context_restorer, hl, Shadow.token, fakeGetCurrentDisplay, fakeGetCurrentSurface,
    fakeGetCurrentContext, EGL_DRAW, EGL_READ]

/-- The constructor body returns and establishes `BodyPost`, on every path. -/
theorem constructorBody_post (env : Env) (w : World) (shareContext : Option Instance)
    (fConfig0 : Nat) (numConfigs0 : Int) (hinv : LoaderInvariant w.table) :
    BodyPost env w (constructorBody env w shareContext fConfig0 numConfigs0) := by
  have hinv0 := load_once_loaderInvariant env w.table hinv
  have hon := load_once_once env w.table
  unfold constructorBody
  dsimp only
  -- line 207
  split
  · exact ⟨rfl, Or.inr ⟨rfl, rfl, rfl⟩, fun _ => rfl, fun t h => by cases h⟩
  rename_i hnl
  have hl : (load_command_buffer_once env w.table).gfFunctionsLoadedSuccessfully = true := by
    simpa using hnl
  obtain ⟨hp1, hp2, -, hp4, -, hp6, -, hp8, -, -, -, -⟩ := hinv0 hl
  -- line 211
  split
  · rename_i h
    exact absurd h (invoke_ne_none _ _ _ _ hp1)
  rename_i r1 w1 h1
  obtain ⟨ht1, hs1⟩ := invoke_frame _ _ _ _ _ _ h1
  dsimp only at ht1 hs1
  clear h1
  split
  · rename_i hd
    exact ⟨ht1, Or.inr ⟨rfl, hd.symm, rfl⟩, fun _ => hs1, fun t h => by cases h⟩
  rename_i hd
  -- line 216
  split
  · rename_i h
    exact absurd h (invoke_ne_none _ _ _ _ (by rw [ht1]; exact hp2))
  rename_i r2 w2 h2
  obtain ⟨ht2, hs2⟩ := invoke_frame _ _ _ _ _ _ h2
  rw [ht1] at ht2
  rw [hs1] at hs2
  clear h2
  split
  · exact destroyAndReturn_post env w _ _ _ ht2 (by rw [ht2]; exact hinv0) (by rw [ht2]; exact hl)
      (fun e => hd e.symm) (fun _ => ⟨rfl, hs2⟩) (fun t h => by cases h)
  -- line 222
  split
  · rename_i h
    exact absurd h (invoke_ne_none _ _ _ _ (by rw [ht2]; exact hp4))
  rename_i r3 w3 h3
  obtain ⟨ht3, hs3⟩ := invoke_frame _ _ _ _ _ _ h3
  rw [ht2] at ht3
  rw [hs2] at hs3
  clear h3
  split
  · exact destroyAndReturn_post env w _ _ _ ht3 (by rw [ht3]; exact hinv0) (by rw [ht3]; exact hl)
      (fun e => hd e.symm) (fun _ => ⟨rfl, hs3⟩) (fun t h => by cases h)
  -- line 229
  split
  · rename_i h
    exact absurd h (invoke_ne_none _ _ _ _ (by rw [ht3]; exact hp6))
  rename_i r4 w4 h4
  obtain ⟨ht4, hs4⟩ := invoke_frame _ _ _ _ _ _ h4
  rw [ht3] at ht4
  rw [hs3] at hs4
  clear h4
  split
  · exact destroyAndReturn_post env w _ _ _ ht4 (by rw [ht4]; exact hinv0) (by rw [ht4]; exact hl)
      (fun e => hd e.symm) (fun _ => ⟨rfl, hs4⟩) (fun t h => by cases h)
  rename_i hsf
  -- line 245
  split
  · rename_i h
    exact absurd h (invoke_ne_none _ _ _ _ (by rw [ht4]; exact hp8))
  rename_i r5 w5 h5
  obtain ⟨ht5, hs5⟩ := invoke_frame _ _ _ _ _ _ h5
  rw [ht4] at ht5
  rw [hs4] at hs5
  clear h5
  split
  · rename_i hc
    exact destroyAndReturn_post env w _ _ _ ht5 (by rw [ht5]; exact hinv0) (by rw [ht5]; exact hl)
      (fun e => hd e.symm) (fun _ => ⟨hc.symm, hs5⟩) (fun t h => by cases h)
  rename_i hc
  -- lines 253-254
  have hcr : context_restorer w5 = some w.tls.token := by
    rw [context_restorer_loaded w5 (by rw [ht5]; exact hl), hs5]
  rw [hcr]
  split
  · rename_i h
    exact absurd h (hookedMakeCurrent_ne_none _ _ _ _ _ _ (by rw [ht5]; exact hinv0))
  rename_i r6 w6 h6
  obtain ⟨ht6, -, -⟩ := hookedMakeCurrent_frame _ _ _ _ _ _ _ _ (by rw [ht5]; exact hinv0) h6
  rw [ht5] at ht6
  clear h6
  split
  · exact destroyAndReturn_post env w _ _ _ ht6 (by rw [ht6]; exact hinv0) (by rw [ht6]; exact hl)
      (fun e => hd e.symm) (fun h => by cases h) (fun t h => by cases h; rfl)
  -- line 260
  split
  · rename_i h
    obtain ⟨gl, w7, h7, -⟩ := create_command_buffer_interface_frame env _ _ h
      (by rw [ht6]; exact hon) (by rw [ht6]; exact hinv0) (by rw [ht6]; exact hl)
    cases h7
  rename_i gl w7 h7
  obtain ⟨gl1, w71, h71, ht7, -⟩ := create_command_buffer_interface_frame env _ _ h7
    (by rw [ht6]; exact hon) (by rw [ht6]; exact hinv0) (by rw [ht6]; exact hl)
  cases h71
  rw [ht6] at ht7
  clear h7
  split
  · exact destroyAndReturn_post env w _ _ _ ht7 (by rw [ht7]; exact hinv0) (by rw [ht7]; exact hl)
      (fun e => hd e.symm) (fun h => by cases h) (fun t h => by cases h; rfl)
  split
  · exact destroyAndReturn_post env w _ _ _ ht7 (by rw [ht7]; exact hinv0) (by rw [ht7]; exact hl)
      (fun e => hd e.symm) (fun h => by cases h) (fun t h => by cases h; rfl)
  -- line 272
  refine ⟨ht7, Or.inl ⟨fun e => hc e.symm, fun e => hd e.symm, fun e => hsf e.symm, ?_⟩, ?_, ?_⟩
  · rw [ht7]
    exact hl
  · intro h
    cases h
  · intro t h
    cases h
    exact ⟨by rw [ht7]; exact hl, rfl⟩

/-- The whole constructor returns: its body establishes `BodyPost`, and the pending restore
action then runs without touching the table. -/
theorem constructor_post (env : Env) (w : World) (shareContext : Option Instance)
    (fConfig0 : Nat) (numConfigs0 : Int) (hinv : LoaderInvariant w.table) :
    ∃ self f wb w1,
      constructorBody env w shareContext fConfig0 numConfigs0 = some (self, f, wb) ∧
      BodyPost env w (some (self, f, wb)) ∧
      runRestorer env f wb = some w1 ∧
      CommandBufferGLTestContext env w shareContext fConfig0 numConfigs0 = some (self, w1) ∧
      w1.table = wb.table := by
  have hpost := constructorBody_post env w shareContext fConfig0 numConfigs0 hinv
  cases hb : constructorBody env w shareContext fConfig0 numConfigs0 with
  | none =>
    rw [hb] at hpost
    exact hpost.elim
  | some res =>
    obtain ⟨self, f, wb⟩ := res
    rw [hb] at hpost
    have hinvb : LoaderInvariant wb.table := by
      rw [hpost.1]
      exact load_once_loaderInvariant env w.table hinv
    cases f with
    | none =>
      refine ⟨self, none, wb, wb, rfl, hpost, rfl, ?_, rfl⟩
      simp [CommandBufferGLTestContext, hb, runRestorer]
    | some t =>
      cases hr : hookedMakeCurrent env wb t.display t.dsurface t.rsurface t.context with
      | none => exact absurd hr (hookedMakeCurrent_ne_none _ _ _ _ _ _ hinvb)
      | some res1 =>
        obtain ⟨r, w1⟩ := res1
        obtain ⟨ht, -, -⟩ := hookedMakeCurrent_frame _ _ _ _ _ _ _ _ hinvb hr
        refine ⟨self, some t, wb, w1, rfl, hpost, ?_, ?_, ht⟩
        · simp [runRestorer, Token.run, hr]
        · simp [CommandBufferGLTestContext, hb, runRestorer, Token.run, hr]

/-- What construction returns is a `ConstructionState`. -/
theorem constructor_constructionState (env : Env) (w : World) (shareContext : Option Instance)
    (fConfig0 : Nat) (numConfigs0 : Int) (hinv : LoaderInvariant w.table) :
    ∃ self w1, CommandBufferGLTestContext env w shareContext fConfig0 numConfigs0
        = some (self, w1) ∧ LoaderInvariant w1.table ∧ ConstructionState w1 self := by
  obtain ⟨self, f, wb, w1, -, hpost, -, hc, ht⟩ :=
    constructor_post env w shareContext fConfig0 numConfigs0 hinv
  obtain ⟨htb, hall, -, -⟩ := hpost
  refine ⟨self, w1, hc, ?_, ?_⟩
  · rw [ht, htb]
    exact load_once_loaderInvariant env w.table hinv
  · rcases hall with ⟨-, hd, -, hl⟩ | h
    · exact Or.inr ⟨by rw [ht]; exact hl, hd⟩
    · exact Or.inl h

/-- The constructor body on the path where choose-config answers success with a configuration
count other than 1: three driver calls, no restore action, all handles none. -/
theorem constructorBody_config_count (env : Env) (w : World) (shareContext : Option Instance)
    (fConfig0 : Nat) (numConfigs0 : Int) (hinv : LoaderInvariant w.table)
    (hl : (load_command_buffer_once env w.table).gfFunctionsLoadedSuccessfully = true)
    (hd : (env.driver w.trace (Call.eglGetDisplay EGL_DEFAULT_DISPLAY)).ret ≠ EGL_NO_DISPLAY)
    (hi : (env.driver (w.trace ++ [Call.eglGetDisplay EGL_DEFAULT_DISPLAY])
        (Call.eglInitialize
          (env.driver w.trace (Call.eglGetDisplay EGL_DEFAULT_DISPLAY)).ret)).ret ≠ 0)
    (hn : (env.driver
        (w.trace ++ [Call.eglGetDisplay EGL_DEFAULT_DISPLAY] ++
          [Call.eglInitialize (env.driver w.trace (Call.eglGetDisplay EGL_DEFAULT_DISPLAY)).ret])
        (Call.eglChooseConfig (env.driver w.trace (Call.eglGetDisplay EGL_DEFAULT_DISPLAY)).ret
          configAttribs 1)).val.getD numConfigs0 ≠ 1) :
    ∃ self, constructorBody env w shareContext fConfig0 numConfigs0 =
      some (self, none,
        { table := load_command_buffer_once env w.table, tls := w.tls,
          trace := w.trace ++ [Call.eglGetDisplay EGL_DEFAULT_DISPLAY] ++
            [Call.eglInitialize (env.driver w.trace (Call.eglGetDisplay EGL_DEFAULT_DISPLAY)).ret] ++
            [Call.eglChooseConfig (env.driver w.trace (Call.eglGetDisplay EGL_DEFAULT_DISPLAY)).ret
              configAttribs 1] }) ∧
      self.fContext = EGL_NO_CONTEXT ∧ self.fDisplay = EGL_NO_DISPLAY ∧
      self.fSurface = EGL_NO_SURFACE := by
  have hinv0 := load_once_loaderInvariant env w.table hinv
  obtain ⟨hp1, hp2, -, hp4, -, -, -, -, -, -, -, -⟩ := hinv0 hl
  have hd2 : ¬ (EGL_NO_DISPLAY = (env.driver w.trace (Call.eglGetDisplay EGL_DEFAULT_DISPLAY)).ret) :=
    fun e => hd e.symm
  unfold constructorBody
  dsimp only
  rw [if_neg (by simp [hl]), invoke_eq _ _ _ _ hp1]
  dsimp only
  rw [if_neg hd2, invoke_eq _ _ _ _ hp2]
  dsimp only
  rw [if_neg hi, invoke_eq _ _ _ _ hp4]
  dsimp only
  rw [if_pos (Or.inr hn)]
  refine ⟨{ fContext := 0, fDisplay := 0, fSurface := 0, fGL := 0,
             fConfig := (env.driver
               (w.trace ++ [Call.eglGetDisplay EGL_DEFAULT_DISPLAY] ++
                 [Call.eglInitialize
                   (env.driver w.trace (Call.eglGetDisplay EGL_DEFAULT_DISPLAY)).ret])
               (Call.eglChooseConfig
                 (env.driver w.trace (Call.eglGetDisplay EGL_DEFAULT_DISPLAY)).ret
                 configAttribs 1)).cfg.getD fConfig0 }, ?_, rfl, rfl, rfl⟩
  unfold destroyAndReturn destroyGLContext
  simp [hl, hd2, EGL_NO_CONTEXT, EGL_NO_SURFACE]
  rfl

/-- C2. For every state the loader can leave behind, every share source, every first content
of the uninitialised `fConfig` and `numConfigs` and every driver: the constructor returns, with
`fContext`, `fDisplay` and `fSurface` all set or all none; and when the loader is loaded, the
display is obtained and initialised, and choose-config answers success with a configuration
count other than 1, all three are none and the constructor's driver calls are get-display,
initialize and choose-config only: no surface and no context is created. -/
theorem constructor_all_or_nothing (env : Env) (w : World) (shareContext : Option Instance)
    (fConfig0 : Nat) (numConfigs0 : Int) (hinv : LoaderInvariant w.table) :
    ∃ self w1, CommandBufferGLTestContext env w shareContext fConfig0 numConfigs0
        = some (self, w1) ∧
      ((self.fContext ≠ EGL_NO_CONTEXT ∧ self.fDisplay ≠ EGL_NO_DISPLAY ∧
          self.fSurface ≠ EGL_NO_SURFACE) ∨
        (self.fContext = EGL_NO_CONTEXT ∧ self.fDisplay = EGL_NO_DISPLAY ∧
          self.fSurface = EGL_NO_SURFACE)) ∧
      ((load_command_buffer_once env w.table).gfFunctionsLoadedSuccessfully = true →
        (env.driver w.trace (Call.eglGetDisplay EGL_DEFAULT_DISPLAY)).ret ≠ EGL_NO_DISPLAY →
        (env.driver (w.trace ++ [Call.eglGetDisplay EGL_DEFAULT_DISPLAY])
          (Call.eglInitialize
            (env.driver w.trace (Call.eglGetDisplay EGL_DEFAULT_DISPLAY)).ret)).ret ≠ 0 →
        (env.driver
          (w.trace ++ [Call.eglGetDisplay EGL_DEFAULT_DISPLAY] ++
            [Call.eglInitialize (env.driver w.trace (Call.eglGetDisplay EGL_DEFAULT_DISPLAY)).ret])
          (Call.eglChooseConfig (env.driver w.trace (Call.eglGetDisplay EGL_DEFAULT_DISPLAY)).ret
            configAttribs 1)).ret ≠ 0 →
        (env.driver
          (w.trace ++ [Call.eglGetDisplay EGL_DEFAULT_DISPLAY] ++
            [Call.eglInitialize (env.driver w.trace (Call.eglGetDisplay EGL_DEFAULT_DISPLAY)).ret])
          (Call.eglChooseConfig (env.driver w.trace (Call.eglGetDisplay EGL_DEFAULT_DISPLAY)).ret
            configAttribs 1)).val.getD numConfigs0 ≠ 1 →
        (self.fContext = EGL_NO_CONTEXT ∧ self.fDisplay = EGL_NO_DISPLAY ∧
          self.fSurface = EGL_NO_SURFACE ∧
          w1.trace = w.trace ++ [Call.eglGetDisplay EGL_DEFAULT_DISPLAY] ++
            [Call.eglInitialize (env.driver w.trace (Call.eglGetDisplay EGL_DEFAULT_DISPLAY)).ret] ++
            [Call.eglChooseConfig (env.driver w.trace (Call.eglGetDisplay EGL_DEFAULT_DISPLAY)).ret
              configAttribs 1])) := by
  obtain ⟨self, f, wb, w1, hb, hpost, hr, hc, -⟩ :=
    constructor_post env w shareContext fConfig0 numConfigs0 hinv
  refine ⟨self, w1, hc, ?_, ?_⟩
  · rcases hpost.2.1 with ⟨h1, h2, h3, -⟩ | h
    · exact Or.inl ⟨h1, h2, h3⟩
    · exact Or.inr h
  · intro hl hd hi _ hn
    obtain ⟨self2, hb2, h1, h2, h3⟩ :=
      constructorBody_config_count env w shareContext fConfig0 numConfigs0 hinv hl hd hi hn
    rw [hb] at hb2
    simp only [Option.some.injEq, Prod.mk.injEq] at hb2
    obtain ⟨rfl, rfl, rfl⟩ := hb2
    simp only [runRestorer, Option.some.injEq] at hr
    subst hr
    exact ⟨h1, h2, h3, rfl⟩

/-- C2 at a driver reporting two configurations: all three handles none, and the driver saw
get-display, initialize and choose-config only. -/
theorem constructor_all_or_nothing_witness :
    LoaderInvariant World.initial.table ∧
    ∃ self w1, CommandBufferGLTestContext envTwoConfigs World.initial none 0 0
        = some (self, w1) ∧
      self.fContext = EGL_NO_CONTEXT ∧ self.fDisplay = EGL_NO_DISPLAY ∧
      self.fSurface = EGL_NO_SURFACE ∧
      w1.trace = [Call.eglGetDisplay 0, Call.eglInitialize 1,
                  Call.eglChooseConfig 1 configAttribs 1] := by
  obtain ⟨self, w1, h, -, hcount⟩ :=
    constructor_all_or_nothing envTwoConfigs World.initial none 0 0 initial_loaderInvariant
  obtain ⟨h1, h2, h3, h4⟩ := hcount (by decide) (by decide) (by decide) (by decide) (by decide)
  exact ⟨initial_loaderInvariant, self, w1, h, h1, h2, h3, h4⟩

/-- C4. For every state the loader can leave behind, with any shadow record, and every driver
that answers `EGL_TRUE` to the make-current the restore action issues when the constructor's
scope is left: the constructor returns, on whichever path, and the four current reads are then
what they were before it. -/
theorem constructor_restores_ambient (env : Env) (w : World) (shareContext : Option Instance)
    (fConfig0 : Nat) (numConfigs0 : Int) (hinv : LoaderInvariant w.table)
    (haccept : ∀ self t wb,
      constructorBody env w shareContext fConfig0 numConfigs0 = some (self, some t, wb) →
      (env.driver wb.trace
        (Call.eglMakeCurrent t.display t.dsurface t.rsurface t.context)).ret = EGL_TRUE) :
    ∃ self w1, CommandBufferGLTestContext env w shareContext fConfig0 numConfigs0
        = some (self, w1) ∧
      currentReads w1 = currentReads w := by
  obtain ⟨self, f, wb, w1, hb, hpost, hr, hc, -⟩ :=
    constructor_post env w shareContext fConfig0 numConfigs0 hinv
  refine ⟨self, w1, hc, ?_⟩
  obtain ⟨htb, -, hnone, hsome⟩ := hpost
  have hinvb : LoaderInvariant wb.table := by
    rw [htb]
    exact load_once_loaderInvariant env w.table hinv
  cases f with
  | none =>
    simp only [runRestorer, Option.some.injEq] at hr
    subst hr
    simp [currentReads, fakeGetCurrentDisplay, fakeGetCurrentSurface, fakeGetCurrentContext,
      hnone rfl]
  | some t =>
    obtain ⟨hl, ht⟩ := hsome t rfl
    have hacc := haccept self t wb hb
    simp only [runRestorer, Token.run,
      hookedMakeCurrent_loaded env wb _ _ _ _ hinvb hl, hacc, if_true, Option.some.injEq] at hr
    subst hr
    subst ht
    simp [currentReads, fakeGetCurrentDisplay, fakeGetCurrentSurface, fakeGetCurrentContext,
      Shadow.token]

/-- C4 at a thread that has another context current, `(1, 2, 2, 3)`, while a new instance is
constructed. -/
theorem constructor_restores_ambient_witness :
    LoaderInvariant sampleCurrent.table ∧
    ∃ self w1, CommandBufferGLTestContext sampleEnv sampleCurrent none 0 0 = some (self, w1) ∧
      currentReads w1 = (1, 2, 2, 3) := by
  have hinv : LoaderInvariant sampleCurrent.table := by decide
  obtain ⟨self, w1, h, hreads⟩ :=
    constructor_restores_ambient sampleEnv sampleCurrent none 0 0 hinv (fun _ _ _ _ => rfl)
  exact ⟨hinv, self, w1, h, by rw [hreads]; decide⟩

/-- C8. For every state, instance and driver: `onPlatformGetAutoContextRestore` returns the
empty action when the loader flag is clear or the thread's current context is the instance's
`fContext`; otherwise it returns an action holding the four current reads of the moment of the
call, and running that action in any later state is one `hookedMakeCurrent` with exactly those
four handles. The function only reads the state: it has no driver call and no state to
return. -/
theorem onPlatformGetAutoContextRestore_contract (env : Env) (w : World) (self : Instance) :
    (w.table.gfFunctionsLoadedSuccessfully = false ∨ fakeGetCurrentContext w = self.fContext →
      onPlatformGetAutoContextRestore w self = none) ∧
    (w.table.gfFunctionsLoadedSuccessfully = true → fakeGetCurrentContext w ≠ self.fContext →
      ∃ t, onPlatformGetAutoContextRestore w self = some t ∧
        (t.display, t.dsurface, t.rsurface, t.context) = currentReads w ∧
        ∀ w2 : World, LoaderInvariant w2.table →
          ∃ r w3, hookedMakeCurrent env w2 (fakeGetCurrentDisplay w)
              (fakeGetCurrentSurface w EGL_DRAW) (fakeGetCurrentSurface w EGL_READ)
              (fakeGetCurrentContext w) = some (r, w3) ∧
            runRestorer env (some t) w2 = some w3) := by
  constructor
  · intro h
    unfold onPlatformGetAutoContextRestore
    rcases h with h | h
    · simp [h]
    · simp [h]
  · intro hl hne
    refine ⟨{ display := fakeGetCurrentDisplay w, dsurface := fakeGetCurrentSurface w EGL_DRAW,
              rsurface := fakeGetCurrentSurface w EGL_READ,
              context := fakeGetCurrentContext w }, ?_, rfl, ?_⟩
    · unfold onPlatformGetAutoContextRestore context_restorer
      simp only [hl, hne, Bool.not_true, Bool.false_eq_true, or_self, if_false]
    · intro w2 hinv2
      cases hr : hookedMakeCurrent env w2 (fakeGetCurrentDisplay w)
          (fakeGetCurrentSurface w EGL_DRAW) (fakeGetCurrentSurface w EGL_READ)
          (fakeGetCurrentContext w) with
      | none => exact absurd hr (hookedMakeCurrent_ne_none _ _ _ _ _ _ hinv2)
      | some res =>
        obtain ⟨r, w3⟩ := res
        exact ⟨r, w3, rfl, by simp [runRestorer, Token.run, hr]⟩

/-- C8 at a thread on which `(1, 2, 2, 3)` is current and an instance whose context is `5`: the
action is not empty and holds `(1, 2, 2, 3)`; at `sampleInstance`, which is current, it is
empty. -/
theorem onPlatformGetAutoContextRestore_contract_witness :
    onPlatformGetAutoContextRestore sampleCurrent sampleInstance = none ∧
    ∃ t, onPlatformGetAutoContextRestore sampleCurrent { sampleInstance with fContext := 5 }
        = some t ∧
      (t.display, t.dsurface, t.rsurface, t.context) = (1, 2, 2, 3) := by
  refine ⟨(onPlatformGetAutoContextRestore_contract sampleEnv sampleCurrent sampleInstance).1
    (Or.inr (by decide)), ?_⟩
  obtain ⟨t, h, hreads, -⟩ := (onPlatformGetAutoContextRestore_contract sampleEnv sampleCurrent
    { sampleInstance with fContext := 5 }).2 (by decide) (by decide)
  exact ⟨t, h, by rw [hreads]; decide⟩

/-- A sequence of hook calls returns and leaves the table alone. -/
theorem makeCurrentSequence_frame (env : Env) (calls : List (Nat × Nat × Nat × Nat))
    (w : World) (hinv : LoaderInvariant w.table) :
    ∃ w1, makeCurrentSequence env w calls = some w1 ∧ w1.table = w.table := by
  induction calls generalizing w with
  | nil => exact ⟨w, rfl, rfl⟩
  | cons c rest ih =>
    obtain ⟨display, draw, read, ctx⟩ := c
    cases hr : hookedMakeCurrent env w display draw read ctx with
    | none => exact absurd hr (hookedMakeCurrent_ne_none _ _ _ _ _ _ hinv)
    | some res =>
      obtain ⟨r, w1⟩ := res
      obtain ⟨ht, -, -⟩ := hookedMakeCurrent_frame _ _ _ _ _ _ _ _ hinv hr
      obtain ⟨w2, h2, ht2⟩ := ih w1 (by rw [ht]; exact hinv)
      exact ⟨w2, by simp [makeCurrentSequence, hr, h2], by rw [ht2, ht]⟩

/-- C3, as stated, fails: from the all-none record with the loader loaded, after a token is
captured and `(1, 2, 2, 3)` is made current, invoking the token on a driver that refuses
make-current on `EGL_NO_DISPLAY` leaves the four reads at `(1, 2, 2, 3)`, not at the captured
`(0, 0, 0, 0)`. -/
theorem save_restore_not_unconditional :
    sampleLoaded.table.gfFunctionsLoadedSuccessfully = true ∧
    currentReads sampleLoaded = (0, 0, 0, 0) ∧
    (saveChangeRestore envRejectNoDisplay sampleLoaded [(1, 2, 2, 3)]).map currentReads
      = some (1, 2, 2, 3) := by
  decide

/-- C3, amended. For every state the loader can leave behind with the loader loaded, whatever
its shadow record, every driver and every sequence of `hookedMakeCurrent` calls: capturing a
token, running the sequence and invoking the token returns; when the driver answers `EGL_TRUE`
to the make-current the token issues, the four current reads are again what they were at the
capture; when it does not, they are what the sequence left. -/
theorem save_restore_round_trip (env : Env) (w : World)
    (calls : List (Nat × Nat × Nat × Nat)) (hinv : LoaderInvariant w.table)
    (hl : w.table.gfFunctionsLoadedSuccessfully = true) :
    ∃ w1 w2, makeCurrentSequence env w calls = some w1 ∧
      saveChangeRestore env w calls = some w2 ∧
      ((env.driver w1.trace (Call.eglMakeCurrent (fakeGetCurrentDisplay w)
          (fakeGetCurrentSurface w EGL_DRAW) (fakeGetCurrentSurface w EGL_READ)
          (fakeGetCurrentContext w))).ret = EGL_TRUE →
        currentReads w2 = currentReads w) ∧
      ((env.driver w1.trace (Call.eglMakeCurrent (fakeGetCurrentDisplay w)
          (fakeGetCurrentSurface w EGL_DRAW) (fakeGetCurrentSurface w EGL_READ)
          (fakeGetCurrentContext w))).ret ≠ EGL_TRUE →
        currentReads w2 = currentReads w1) := by
  obtain ⟨w1, h1, ht1⟩ := makeCurrentSequence_frame env calls w hinv
  have hinv1 : LoaderInvariant w1.table := by rw [ht1]; exact hinv
  have hl1 : w1.table.gfFunctionsLoadedSuccessfully = true := by rw [ht1]; exact hl
  have hrun : saveChangeRestore env w calls =
      (hookedMakeCurrent env w1 (fakeGetCurrentDisplay w) (fakeGetCurrentSurface w EGL_DRAW)
        (fakeGetCurrentSurface w EGL_READ) (fakeGetCurrentContext w)).map Prod.snd := by
    simp only [saveChangeRestore, h1, context_restorer, hl, Bool.not_true, Bool.false_eq_true,
      if_false, runRestorer, Token.run]
    cases hookedMakeCurrent env w1 (fakeGetCurrentDisplay w) (fakeGetCurrentSurface w EGL_DRAW)
        (fakeGetCurrentSurface w EGL_READ) (fakeGetCurrentContext w) with
    | none => rfl
    | some res => rfl
  rw [hrun, hookedMakeCurrent_loaded env w1 _ _ _ _ hinv1 hl1]
  by_cases hr : (env.driver w1.trace (Call.eglMakeCurrent (fakeGetCurrentDisplay w)
      (fakeGetCurrentSurface w EGL_DRAW) (fakeGetCurrentSurface w EGL_READ)
      (fakeGetCurrentContext w))).ret = EGL_TRUE
  · rw [if_pos hr]
    refine ⟨w1, _, h1, rfl, fun _ => ?_, fun hn => absurd hr hn⟩
    simp [currentReads, fakeGetCurrentDisplay, fakeGetCurrentSurface, fakeGetCurrentContext,
      EGL_DRAW, EGL_READ]
  · rw [if_neg hr]
    refine ⟨w1, _, h1, rfl, fun hy => absurd hy hr, fun _ => ?_⟩
    simp [currentReads, fakeGetCurrentDisplay, fakeGetCurrentSurface, fakeGetCurrentContext]

/-- C3, amended, from the all-none record on an accepting driver: after `(1, 2, 2, 3)` was made
current, invoking the token brings the four reads back to `(0, 0, 0, 0)`. -/
theorem save_restore_round_trip_witness :
    ∃ w2, saveChangeRestore sampleEnv sampleLoaded [(1, 2, 2, 3)] = some w2 ∧
      currentReads w2 = (0, 0, 0, 0) := by
  obtain ⟨w1, w2, -, h2, hyes, -⟩ :=
    save_restore_round_trip sampleEnv sampleLoaded [(1, 2, 2, 3)] (by decide) (by decide)
  exact ⟨w2, h2, by rw [hyes rfl]; decide⟩

end CommandBuffer
